import Mathlib

set_option allowUnsafeReducibility true

set_option maxRecDepth 200000

set_option maxHeartbeats 1000000

/-!
Shallow embedding of the simulation engine of THE SPIRE (src/main.py).

The engine state (`GameState`), its per-turn transition (`advance_turn`) and
the crisis / minor-event / dilemma generators are translated from the Python
source.  Python floats are modelled as rationals; the `random` module is
modelled by an explicit tape of drawn values (`Tape`) threaded through every
function that consumes randomness, so that properties can be stated either
for all tapes or for one concrete tape.
-/

namespace Spire

inductive SectorType where
  | residential
  | farms
  | power
  | industrial
  | empty
deriving DecidableEq, Repr

/-- Display name of a sector type, the third component of the Python enum value. -/
def SectorType.displayName : SectorType → String
  | .residential => "Housing"
  | .farms => "Farms"
  | .power => "Power"
  | .industrial => "Industry"
  | .empty => "Empty"

inductive DisasterType where
  | fire
  | collapse
  | disease
  | riots
deriving DecidableEq, Repr

structure Sector where
  level : ℕ
  sector_type : SectorType
  health : ℚ := 100
  workers : ℕ := 0
  disaster : Option DisasterType := none
  disaster_intensity : ℤ := 0
  on_fire : Bool := false
  fire_turns : ℕ := 0
  unstable : Bool := false
  quarantined : Bool := false
deriving DecidableEq, Repr

instance : Inhabited Sector := ⟨{ level := 0, sector_type := .empty }⟩

/-- Sector.is_functional from the source: health strictly above 20 and not on fire. -/
def Sector.is_functional (sec : Sector) : Bool :=
  decide (sec.health > 20) && !sec.on_fire

structure Citizen where
  name : String
  role : String
  location : ℕ
  alive : Bool := true
deriving DecidableEq, Repr

/-- A dilemma.  The Python object stores two consequence closures that both
capture one target sector; since sectors are identified by their level we
record the captured target's level and apply the closures through
`save_sector` / `abandon_sector` below. -/
structure Dilemma where
  title : String
  description : String
  option_a : String
  option_b : String
  target_level : ℕ
deriving DecidableEq, Repr

structure GameState where
  year : ℕ := 1
  month : ℕ := 1
  food : ℚ := 150
  power : ℚ := 100
  materials : ℚ := 80
  population : ℤ := 85
  morale : ℚ := 65
  sectors : List Sector := []
  max_height : ℕ := 12
  citizens : List Citizen := []
  events : List (String × String) := []
  current_dilemma : Option Dilemma := none
  tension : ℚ := 0
  turns_since_crisis : ℕ := 0
  alive : Bool := true
  victory_message : String := ""
  cursor : ℕ := 5
  building_mode : Bool := false
deriving DecidableEq, Repr

/-! ### The randomness tape -/

/-- One drawn random value: `q` for calls returning a float
(random.random, random.uniform), `n` for calls returning an integer or an
index (random.randint, random.choice, random.sample). -/
inductive Rand where
  | q (x : ℚ)
  | n (k : ℕ)
deriving DecidableEq, Repr

abbrev Tape := List Rand

def clamp01 (x : ℚ) : ℚ := max 0 (min x 1)

/-- Draw random.random(): a rational clamped into the unit interval.  An
exhausted or mismatched tape yields 1, which fails every strict threshold
test the engine performs. -/
def randFloat : Tape → ℚ × Tape
  | .q x :: rest => (clamp01 x, rest)
  | .n k :: rest => (clamp01 (k : ℚ), rest)
  | [] => (1, [])

def randNat : Tape → ℕ × Tape
  | .n k :: rest => (k, rest)
  | .q _ :: rest => (0, rest)
  | [] => (0, [])

/-- Python random.randint lo hi: a uniform integer in [lo, hi] (inclusive). -/
def randInt (lo hi : ℕ) (t : Tape) : ℕ × Tape :=
  let p := randNat t
  (lo + p.1 % (hi + 1 - lo), p.2)

/-- Python random.uniform a b. -/
def randUniform (a b : ℚ) (t : Tape) : ℚ × Tape :=
  let p := randFloat t
  (a + (b - a) * p.1, p.2)

/-- Python random.choice over a non-empty list (every call site in the source
guards against emptiness; on an empty list we return the default element). -/
def randChoice [Inhabited α] (l : List α) (t : Tape) : α × Tape :=
  let p := randNat t
  (l.getD (p.1 % l.length) default, p.2)

/-- Python random.sample: `count` distinct elements, drawn by repeatedly
removing one position from the remaining list. -/
def randSample [Inhabited α] : List α → ℕ → Tape → List α × Tape
  | _, 0, t => ([], t)
  | l, count + 1, t =>
      if l.isEmpty then ([], t)
      else
        let p := randNat t
        let i := p.1 % l.length
        let rest := randSample (l.eraseIdx i) count p.2
        (l.getD i default :: rest.1, rest.2)

/-! ### Basic state helpers -/

/-- Simulation._add_event: append a year/month-stamped entry and evict the
oldest entry once the log holds more than 50. -/
def add_event (message color : String) (s : GameState) : GameState :=
  let entry := ("Y" ++ toString s.year ++ "M" ++ toString s.month ++ ": " ++ message, color)
  let evs := s.events ++ [entry]
  { s with events := if evs.length > 50 then evs.tail else evs }

/-- GameState.get_sector: the first sector with the given level, if any. -/
def get_sector (s : GameState) (level : ℕ) : Option Sector :=
  s.sectors.find? (fun sec => sec.level == level)

/-- get_sector at an integer level, as used for the level-below / adjacent
lookups where Python computes `level - 1` over ℤ. -/
def get_sectorZ (s : GameState) (level : ℤ) : Option Sector :=
  s.sectors.find? (fun sec => (sec.level : ℤ) == level)

/-- Replace the first element satisfying `p` by its image under `f`
(Python mutates the single object found by get_sector / choice). -/
def modifyFirst (p : α → Bool) (f : α → α) : List α → List α
  | [] => []
  | x :: xs => if p x then f x :: xs else x :: modifyFirst p f xs

/-- Replace the element at a position (Python mutates the sector object at a
known position of the list). -/
def modifyIdx (f : α → α) : ℕ → List α → List α
  | _, [] => []
  | 0, x :: xs => f x :: xs
  | i + 1, x :: xs => x :: modifyIdx f i xs

def updateSector (level : ℕ) (f : Sector → Sector) (s : GameState) : GameState :=
  { s with sectors := modifyFirst (fun sec => sec.level == level) f s.sectors }

def updateSectorZ (level : ℤ) (f : Sector → Sector) (s : GameState) : GameState :=
  { s with sectors := modifyFirst (fun sec => (sec.level : ℤ) == level) f s.sectors }

/-- Python int() applied to a rational: truncation toward zero. -/
def pytrunc (x : ℚ) : ℤ := if 0 ≤ x then x.floor else -(-x).floor

/-! ### Action resolution (Simulation._process_action) -/

def sortSectors (l : List Sector) : List Sector :=
  l.insertionSort (fun a b => a.level ≤ b.level)

/-- Python str.startswith, implemented over the character lists so that it
evaluates by kernel reduction. -/
def strStartsWith (s pre : String) : Bool := pre.data.isPrefixOf s.data

def process_action (action : String) (s : GameState) (t : Tape) : GameState × Tape :=
  if action = "repair" then
    match get_sector s s.cursor with
    | some _ =>
        if s.materials ≥ 40 then
          (add_event ("🔧 Level " ++ toString s.cursor ++ " repaired") "green"
            (updateSector s.cursor
              (fun x => { x with health := min 100 (x.health + 50) })
              { s with materials := s.materials - 40 }), t)
        else (add_event "❌ Need 40 materials" "red" s, t)
    | none => (add_event "❌ Need 40 materials" "red" s, t)
  else if action = "extinguish" then
    match get_sector s s.cursor with
    | some sec =>
        if sec.on_fire ∧ s.power ≥ 30 then
          (add_event ("🚒 Fire on Level " ++ toString s.cursor ++ " extinguished") "green"
            (updateSector s.cursor (fun x => { x with on_fire := false })
              { s with power := s.power - 30 }), t)
        else (add_event "❌ Need 30 power or no fire" "red" s, t)
    | none => (add_event "❌ Need 30 power or no fire" "red" s, t)
  else if strStartsWith action "build" then
    let next_level := s.sectors.length + 1
    if next_level > s.max_height then (add_event "❌ At maximum height" "red" s, t)
    else if s.materials < 80 then (add_event "❌ Need 80 materials to build" "red" s, t)
    else
      let stype : SectorType :=
        if action = "build_farm" then .farms
        else if action = "build_power" then .power
        else if action = "build_industry" then .industrial
        else .residential
      let type_name : String :=
        if action = "build_farm" then "Farm"
        else if action = "build_power" then "Power"
        else if action = "build_industry" then "Industry"
        else "Housing"
      let p := randInt 5 10 t
      let new_sector : Sector := { level := next_level, sector_type := stype, workers := p.1 }
      let s₁ := { s with materials := s.materials - 80,
                         sectors := sortSectors (s.sectors ++ [new_sector]) }
      (add_event ("🏗️  " ++ type_name ++ " built on Level " ++ toString next_level) "cyan" s₁, p.2)
  else if action = "boost_morale" then
    if s.food ≥ 40 ∧ s.power ≥ 20 then
      (add_event "🎉 Festival held - morale boosted!" "green"
        { s with food := s.food - 40, power := s.power - 20, morale := s.morale + 30 }, t)
    else (add_event "❌ Need 40 food + 20 power" "red" s, t)
  else if action = "emergency_rations" then
    if s.population > 30 then
      (add_event "⚔️  Culled 10 citizens for emergency rations" "red"
        { s with population := s.population - 10, food := s.food + 60,
                 morale := s.morale - 20 }, t)
    else (s, t)
  else (s, t)

/-! ### Turn pipeline phases -/

/-- Phase 1: advance the calendar and the pacing counter. -/
def clock_advance (s : GameState) : GameState :=
  let s₁ := { s with month := s.month + 1 }
  let s₂ := if s₁.month > 12 then { s₁ with month := 1, year := s₁.year + 1 } else s₁
  { s₂ with turns_since_crisis := s₂.turns_since_crisis + 1 }

/-- One sector's contribution to the production accumulator
(power_gen, food_gen, materials_gen). -/
def prodStep (acc : ℚ × ℚ × ℚ) (sec : Sector) : ℚ × ℚ × ℚ :=
  if sec.is_functional then
    let efficiency := sec.health / 100
    match sec.sector_type with
    | .power => (acc.1 + sec.workers * 3 * efficiency, acc.2.1, acc.2.2)
    | .farms => (acc.1, acc.2.1 + sec.workers * 2.5 * efficiency, acc.2.2)
    | .industrial => (acc.1, acc.2.1, acc.2.2 + sec.workers * 2 * efficiency)
    | _ => acc
  else acc

/-- Phase 3: production by functional sectors. -/
def production (s : GameState) : GameState :=
  let gens := s.sectors.foldl prodStep (0, 0, 0)
  { s with power := s.power + gens.1, food := s.food + gens.2.1,
           materials := s.materials + gens.2.2 }

/-- Phase 4: consumption by the population. -/
def consumption (s : GameState) : GameState :=
  { s with power := s.power - s.population * 0.6, food := s.food - s.population * 1.0 }

/-- Phase 5a: starvation check, clamping food back to 0. -/
def starvation_check (s : GameState) : GameState :=
  if s.food < 0 then
    let deaths := min (pytrunc (s.population * 0.12)) 15
    let s₁ := add_event ("💀 STARVATION: " ++ toString deaths ++ " die from hunger") "red"
      { s with population := s.population - deaths, morale := s.morale - 25 }
    { s₁ with food := 0 }
  else s

/-- The blackout victim takes 25 damage, with a log entry. -/
def blackoutDamage (lv : ℕ) (s : GameState) : GameState :=
  add_event ("⚡ BLACKOUT damages Level " ++ toString lv) "red"
    (updateSector lv (fun x => { x with health := x.health - 25 }) s)

/-- The power pool is clamped back to zero. -/
def zeroPower (s : GameState) : GameState := { s with power := 0 }

/-- Phase 5b: blackout check, clamping power back to 0. -/
def blackout_check (s : GameState) (t : Tape) : GameState × Tape :=
  if s.power < 0 then
    let s₁ : GameState := { s with morale := s.morale - 15 }
    let functional := s₁.sectors.filter (·.is_functional)
    if functional.isEmpty then (zeroPower s₁, t)
    else
      let p := randChoice functional t
      (zeroPower (blackoutDamage p.1.level s₁), p.2)
  else (s, t)

/-- Fire spread to one adjacent level (the body of the inner loop of
Simulation._propagate_disasters); the random draw happens only when a
non-burning sector exists at that level. -/
def spreadTo (lv : ℤ) (st : GameState × Tape) : GameState × Tape :=
  match get_sectorZ st.1 lv with
  | none => st
  | some adj =>
      if adj.on_fire then st
      else
        let p := randFloat st.2
        if p.1 < 0.5 then
          (add_event ("🔥 Fire spreads to Level " ++ toString lv ++ "!") "red"
            (updateSectorZ lv (fun x => { x with on_fire := true, fire_turns := 0 }) st.1),
           p.2)
        else (st.1, p.2)

/-- The burning sector takes its per-turn fire damage and its fire counter
advances. -/
def fireDamaged (i : ℕ) (st : GameState × Tape) : GameState × Tape :=
  ({ st.1 with sectors :=
      (modifyIdx (fun x => { x with fire_turns := x.fire_turns + 1, health := x.health - 8 })
        i st.1.sectors) }, st.2)

/-- A successful spread roll attempts both vertical neighbours, lower one
first. -/
def spreadBoth (lv : ℤ) (st : GameState × Tape) : GameState × Tape :=
  spreadTo (lv + 1) (spreadTo (lv - 1) st)

/-- The spread attempt of a sector whose (already incremented) fire counter
is `ft`: one 0.4 roll, then both vertical neighbours. -/
def fireSpread (lv : ℤ) (ft : ℕ) (st : GameState × Tape) : GameState × Tape :=
  if ft > 2 then
    let p := randFloat st.2
    if p.1 < 0.4 then spreadBoth lv (st.1, p.2)
    else (st.1, p.2)
  else st

/-- The natural burn-out attempt once the fire counter exceeds 5. -/
def fireBurnout (i : ℕ) (lv : ℕ) (ft : ℕ) (st : GameState × Tape) : GameState × Tape :=
  if ft > 5 then
    let p := randFloat st.2
    if p.1 < 0.3 then
      (add_event ("🔥 Fire on Level " ++ toString lv ++ " burns out") "yellow"
        { st.1 with sectors :=
          (modifyIdx (fun x => { x with on_fire := false }) i st.1.sectors) }, p.2)
    else (st.1, p.2)
  else st

/-- Processing of the sector at one position of the list inside
Simulation._propagate_disasters. -/
def fireStep (i : ℕ) (st : GameState × Tape) : GameState × Tape :=
  match st.1.sectors.get? i with
  | none => st
  | some sec =>
      if sec.on_fire then
        let ft := sec.fire_turns + 1
        fireBurnout i sec.level ft (fireSpread (sec.level : ℤ) ft (fireDamaged i st))
      else st

/-- Phase 6: Simulation._propagate_disasters. -/
def propagate_disasters (s : GameState) (t : Tape) : GameState × Tape :=
  (List.range s.sectors.length).foldl (fun st i => fireStep i st) (s, t)

/-- The 0.3-probability cascade of a collapse onto the level directly
below. -/
def collapseCascade (lv : ℤ) (st : GameState × Tape) : GameState × Tape :=
  let p := randFloat st.2
  if p.1 < 0.3 then
    match get_sectorZ st.1 lv with
    | some below =>
        (add_event ("⚠️  Collapse damages Level " ++ toString below.level ++ "!") "yellow"
          (updateSectorZ lv (fun x => { x with health := x.health - 40 }) st.1), p.2)
    | none => (st.1, p.2)
  else (st.1, p.2)

/-- The decayed health of a sector: 1.5 per turn, doubled above level 8,
only while health is positive. -/
def decayedHealth (sec : Sector) : ℚ :=
  if sec.health > 0 then sec.health - (if sec.level > 8 then 3 else 1.5) else sec.health

/-- The health write-back of the decay loop. -/
def decayDamaged (i : ℕ) (h' : ℚ) (st : GameState × Tape) : GameState × Tape :=
  ({ st.1 with sectors :=
      (modifyIdx (fun x => { x with health := h' }) i st.1.sectors) }, st.2)

/-- The collapse of the sector at position `i` (snapshot `sec`): its workers
become casualties and the cascade below is attempted. -/
def decayCollapse (i : ℕ) (sec : Sector) (st : GameState × Tape) : GameState × Tape :=
  collapseCascade ((sec.level : ℤ) - 1)
    (add_event
      ("💥 Level " ++ toString sec.level ++ " COLLAPSES: " ++ toString sec.workers ++ " lost")
      "red"
      { st.1 with population := st.1.population - sec.workers,
                  sectors := (modifyIdx (fun x => { x with workers := 0 }) i st.1.sectors) },
     st.2)

/-- Processing of the sector at one position of the list inside the decay /
collapse loop of advance_turn. -/
def decayStep (i : ℕ) (st : GameState × Tape) : GameState × Tape :=
  match st.1.sectors.get? i with
  | none => st
  | some sec =>
      if decayedHealth sec ≤ 0 ∧ sec.workers > 0 then
        decayCollapse i sec (decayDamaged i (decayedHealth sec) st)
      else decayDamaged i (decayedHealth sec) st

/-- Phase 7: structural decay and collapse. -/
def decay_phase (s : GameState) (t : Tape) : GameState × Tape :=
  (List.range s.sectors.length).foldl (fun st i => decayStep i st) (s, t)

/-- Low morale sends citizens away. -/
def moraleFlee (fled : ℕ) (s : GameState) : GameState :=
  add_event ("🚪 " ++ toString fled ++ " citizens flee the Spire") "yellow"
    { s with population := s.population - fled }

/-- Passive morale regeneration below the 60 threshold. -/
def moraleRegen (s : GameState) : GameState :=
  if s.morale < 60 then { s with morale := s.morale + 1.5 } else s

def moraleGrow (growth : ℕ) (s : GameState) : GameState :=
  { s with population := s.population + growth }

/-- Phase 8: morale and population adjustment. -/
def morale_phase (s : GameState) (t : Tape) : GameState × Tape :=
  let st₁ : GameState × Tape :=
    if s.morale < 30 then
      let p := randInt 3 8 t
      (moraleFlee p.1 s, p.2)
    else (s, t)
  let s₂ := moraleRegen st₁.1
  if s₂.food > 50 ∧ s₂.morale > 50 ∧ s₂.month % 3 = 0 then
    let p := randInt 2 5 st₁.2
    (moraleGrow p.1 s₂, p.2)
  else (s₂, st₁.2)

/-! ### Crisis and minor-event catalog -/

/-- The per-sector damage loop of Simulation._crisis_earthquake, accumulating
casualties. -/
def quakeHits : List ℕ → GameState → Tape → ℤ → GameState × Tape × ℤ
  | [], s, t, cas => (s, t, cas)
  | lv :: rest, s, t, cas =>
      let p := randInt 20 45 t
      let s₁ := updateSector lv (fun x => { x with health := x.health - p.1 }) s
      let p₂ := randInt 2 6 p.2
      quakeHits rest s₁ p₂.2 (cas + p₂.1)

/-- Casualty accounting and the log entry of the earthquake. -/
def quakeAftermath (affected : ℕ) (hit : GameState × Tape × ℤ) : GameState × Tape :=
  (add_event ("🌍 EARTHQUAKE! " ++ toString affected ++ " levels damaged, "
      ++ toString hit.2.2 ++ " dead") "red"
    { hit.1 with population := hit.1.population - hit.2.2,
                 morale := hit.1.morale - 20 }, hit.2.1)

def crisis_earthquake (s : GameState) (t : Tape) : GameState × Tape :=
  let pa := randInt 2 5 t
  let ph := randSample s.sectors (min pa.1 s.sectors.length) pa.2
  quakeAftermath pa.1 (quakeHits (ph.1.map (·.level)) s ph.2 0)

def crisis_fire (s : GameState) (t : Tape) : GameState × Tape :=
  let p := randChoice s.sectors t
  (add_event ("🔥 MAJOR FIRE on Level " ++ toString p.1.level ++ "! Spreading fast!") "red"
    (updateSector p.1.level (fun x => { x with on_fire := true, fire_turns := 0 }) s), p.2)

def crisis_disease (s : GameState) (t : Tape) : GameState × Tape :=
  let p := randUniform 0.15 0.3 t
  let deaths := pytrunc (s.population * p.1)
  (add_event ("🦠 PLAGUE OUTBREAK: " ++ toString deaths ++ " dead in days") "red"
    { s with population := s.population - deaths, morale := s.morale - 30 }, p.2)

/-- Casualty accounting and the log entry of the structural failure. -/
def structuralAftermath (levels_lost : ℕ) (casualties : ℤ) (s : GameState) : GameState :=
  add_event ("💥 STRUCTURAL FAILURE: " ++ toString levels_lost ++ " levels collapse, "
      ++ toString casualties ++ " lost") "red"
    { s with population := s.population - casualties }

/-- Destruction of one sampled sector during a structural failure. -/
def wreckSector (st : GameState) (sec : Sector) : GameState :=
  updateSector sec.level (fun x => { x with health := 0, workers := 0 }) st

def crisis_structural_failure (s : GameState) (t : Tape) : GameState × Tape :=
  let pl := randInt 1 3 t
  let pt := randSample s.sectors (min pl.1 s.sectors.length) pl.2
  (structuralAftermath pl.1 (pt.1.foldl (fun c sec => c + sec.workers) 0)
    (pt.1.foldl wreckSector s), pt.2)

/-- Casualty accounting and the log entry of the riot. -/
def riotAftermath (lv deaths : ℕ) (s : GameState) : GameState :=
  add_event ("✊ RIOTS on Level " ++ toString lv ++ ": "
      ++ toString deaths ++ " casualties") "red"
    { s with morale := s.morale - 25, population := s.population - deaths }

def crisis_riot (s : GameState) (t : Tape) : GameState × Tape :=
  let pc := randChoice s.sectors t
  let pd := randInt 5 15 pc.2
  (riotAftermath pc.1.level pd.1
    (updateSector pc.1.level (fun x => { x with health := x.health - 30 }) s), pd.2)

/-- Simulation._trigger_crisis: pick one of the five generators uniformly. -/
def trigger_crisis (s : GameState) (t : Tape) : GameState × Tape :=
  let p := randNat t
  match p.1 % 5 with
  | 0 => crisis_earthquake s p.2
  | 1 => crisis_fire s p.2
  | 2 => crisis_disease s p.2
  | 3 => crisis_structural_failure s p.2
  | _ => crisis_riot s p.2

/-- Simulation._trigger_minor_event: pick one of the four additive events. -/
def trigger_minor_event (s : GameState) (t : Tape) : GameState × Tape :=
  let p := randNat t
  match p.1 % 4 with
  | 0 =>
      let pa := randInt 30 60 p.2
      (add_event "🎁 Supply cache discovered" "green"
        { s with materials := s.materials + pa.1 }, pa.2)
  | 1 =>
      let pa := randInt 5 12 p.2
      (add_event "👥 Refugee group arrives" "cyan"
        { s with population := s.population + pa.1 }, pa.2)
  | 2 =>
      let pa := randInt 40 80 p.2
      (add_event "⚡ Power surge" "yellow" { s with power := s.power + pa.1 }, pa.2)
  | _ =>
      let pa := randInt 50 100 p.2
      (add_event "🌾 Abundant harvest" "green" { s with food := s.food + pa.1 }, pa.2)

/-! ### Dilemma subsystem -/

/-- Simulation._create_dilemma: requires a sector with 20 < health < 60. -/
def create_dilemma (s : GameState) (t : Tape) : GameState × Tape :=
  let damaged := s.sectors.filter (fun sec => decide (20 < sec.health) && decide (sec.health < 60))
  if damaged.isEmpty then (s, t)
  else
    let p := randChoice damaged t
    let target := p.1
    ({ s with current_dilemma :=
        (some
          { title := "Level " ++ toString target.level ++ " Critical",
            description := target.sector_type.displayName ++ " sector failing! "
              ++ toString target.workers ++ " workers trapped.",
            option_a := "Reinforce (-50 materials)",
            option_b := "Evacuate (lose workers)",
            target_level := target.level }) }, p.2)

/-- The save_sector closure (dilemma option A) for a dilemma whose captured
target sector sits at level `lv`: health +40, materials −50, success log. -/
def save_sector (lv : ℕ) (s : GameState) : GameState :=
  let s₁ := updateSector lv (fun x => { x with health := x.health + 40 }) s
  let s₂ := { s₁ with materials := s₁.materials - 50 }
  add_event ("✅ Level " ++ toString lv ++ " reinforced") "green" s₂

/-- The abandon_sector closure (dilemma option B) for a dilemma whose captured
target sector sits at level `lv`. -/
def abandon_sector (lv : ℕ) (s : GameState) : GameState :=
  let refugees : ℕ := ((get_sector s lv).map (·.workers)).getD 0
  let s₁ := { s with population := s.population - pytrunc ((refugees : ℚ) * 0.3) }
  let s₂ := updateSector lv (fun x => { x with workers := 0, health := 0 }) s₁
  let s₃ := { s₂ with morale := s₂.morale - 15 }
  add_event ("🚪 Level " ++ toString lv ++ " evacuated, some lost") "yellow" s₃

/-! ### Terminal evaluation and the full turn -/

def functionalCount (s : GameState) : ℕ :=
  (s.sectors.filter (·.is_functional)).length

def extinctionMsg (year : ℕ) : String :=
  "💀 EXTINCTION - The Spire stands empty. Year " ++ toString year

def collapseMsg (year : ℕ) : String :=
  "💥 TOTAL COLLAPSE - All sectors destroyed. Year " ++ toString year

def legendaryMsg (year : ℕ) (pop : ℤ) : String :=
  "🏆 LEGENDARY - " ++ toString year ++ " years, " ++ toString pop ++ " survivors!"

/-- Phase 10: the three terminal checks, executed in sequence as three
independent `if` statements, each overwriting `alive` and `victory_message`. -/
def win_lose (s : GameState) : GameState :=
  let s₁ :=
    if s.population ≤ 0 then
      { s with population := 0, alive := false,
               victory_message := extinctionMsg s.year }
    else s
  let s₂ :=
    if functionalCount s₁ = 0 then
      { s₁ with alive := false, victory_message := collapseMsg s₁.year }
    else s₁
  if s₂.year ≥ 50 then
    { s₂ with alive := false, victory_message := legendaryMsg s₂.year s₂.population }
  else s₂

/-- After a triggered crisis both pacing counters reset. -/
def crisisReset (st : GameState × Tape) : GameState × Tape :=
  ({ st.1 with tension := 0, turns_since_crisis := 0 }, st.2)

def pacing_crisis (s : GameState) (t : Tape) : GameState × Tape :=
  if s.tension > 100 then crisisReset (trigger_crisis s t)
  else if s.turns_since_crisis > 8 then
    let p := randFloat t
    if p.1 < 0.4 then crisisReset (trigger_crisis s p.2)
    else (s, p.2)
  else (s, t)

/-- Pacing: a minor event on a 0.15 roll. -/
def pacing_minor (st : GameState × Tape) : GameState × Tape :=
  let p := randFloat st.2
  if p.1 < 0.15 then trigger_minor_event st.1 p.2 else (st.1, p.2)

/-- Pacing: a fresh dilemma on a 0.12 roll, only when none is outstanding. -/
def pacing_dilemma (st : GameState × Tape) : GameState × Tape :=
  if st.1.current_dilemma.isNone then
    let p := randFloat st.2
    if p.1 < 0.12 then create_dilemma st.1 p.2 else (st.1, p.2)
  else st

/-- Phase 9: tension buildup, then the three pacing rolls. -/
def pacing_phase (s : GameState) (t : Tape) : GameState × Tape :=
  let s₀ : GameState := { s with tension := s.tension + 2.5 }
  pacing_dilemma (pacing_minor (pacing_crisis s₀ t))

/-- Phases 6 through 9 of the pipeline, everything after the resource
clamps. -/
def post_clamp (s : GameState) (t : Tape) : GameState × Tape :=
  let st₄ := propagate_disasters s t
  let st₅ := decay_phase st₄.1 st₄.2
  let st₆ := morale_phase st₅.1 st₅.2
  pacing_phase st₆.1 st₆.2

/-- Phases 1 through 9 of Simulation.advance_turn. -/
def preTerminal (action : String) (s : GameState) (t : Tape) : GameState × Tape :=
  let s₀ := clock_advance s
  let st₁ := if action ≠ "wait" then process_action action s₀ t else (s₀, t)
  let st₃ := blackout_check (starvation_check (consumption (production st₁.1))) st₁.2
  post_clamp st₃.1 st₃.2

/-- Simulation.advance_turn: the full per-turn transition. -/
def advance_turn (action : String) (t : Tape) (s : GameState) : GameState :=
  win_lose (preTerminal action s t).1

/-! ### Fresh world and drivers -/

/-- GameState._initialize_tower: the eight starting sectors, workers drawn
uniformly from 8 to 15 each. -/
def initial_tower (t : Tape) : List Sector × Tape :=
  let configs : List (ℕ × SectorType) :=
    [(1, .power), (2, .industrial), (3, .residential), (4, .farms),
     (5, .residential), (6, .farms), (7, .power), (8, .residential)]
  configs.foldl
    (fun acc cfg =>
      let p := randInt 8 15 acc.2
      (acc.1 ++ [{ level := cfg.1, sector_type := cfg.2, workers := p.1 }], p.2))
    ([], t)

/-- GameState._initialize_citizens: five named citizens with random role and
location. -/
def initial_citizens (sectors : List Sector) (t : Tape) : List Citizen × Tape :=
  let roles : List String := ["Engineer", "Farmer", "Doctor", "Builder", "Guard", "Scientist"]
  let names : List String := ["Chen", "Maria", "Akeno", "Viktor", "Zara"]
  names.foldl
    (fun acc nm =>
      let pr := randChoice roles acc.2
      let pl := randChoice (sectors.map (·.level)) pr.2
      (acc.1 ++ [{ name := nm, role := pr.1, location := pl.1 }], pl.2))
    ([], t)

/-- A fresh World State as built by GameState() followed by the two welcome
log entries of Simulation.__init__. -/
def init_simulation (t : Tape) : GameState × Tape :=
  let pt := initial_tower t
  let pc := initial_citizens pt.1 pt.2
  let s : GameState := { sectors := pt.1, citizens := pc.1 }
  let s₁ := add_event "⚡ The Spire awakens. Your people huddle in its shadow." "cyan" s
  (add_event "⚠️  The Tower is unstable. Disasters will come. Be ready." "yellow" s₁, pc.2)

/-- States reachable from a fresh world by a sequence of advance_turn calls. -/
inductive Reachable : GameState → Prop where
  | init : ∀ t, Reachable (init_simulation t).1
  | step : ∀ s action t, Reachable s → Reachable (advance_turn action t s)

/-- The SpireApp action handlers (action_do_repair, action_do_wait, ...):
when the game is over or a dilemma is outstanding they return without
invoking advance_turn. -/
def uiSubmitAction (gameOver : Bool) (action : String) (s : GameState) (t : Tape) : GameState :=
  if gameOver || s.current_dilemma.isSome then s else advance_turn action t s

/-! ### Concrete states used as test inputs -/

/-- A state about to end: nobody left alive and the only sector dead. -/
def deadTowerState : GameState :=
  { population := 0, food := 100, power := 100,
    sectors := [{ level := 1, sector_type := .power, health := 0 }] }

def sampleDilemma : Dilemma :=
  { title := "Level 3 Critical",
    description := "Housing sector failing! 5 workers trapped.",
    option_a := "Reinforce (-50 materials)",
    option_b := "Evacuate (lose workers)",
    target_level := 3 }

/-- A healthy state with an outstanding dilemma. -/
def pendingDilemmaState : GameState :=
  { current_dilemma := some sampleDilemma, food := 200, power := 200, population := 40,
    sectors := [{ level := 1, sector_type := .power, health := 100, workers := 5 },
                { level := 2, sector_type := .farms, health := 100, workers := 5 },
                { level := 3, sector_type := .residential, health := 55, workers := 5 }] }

/-- A game-over state in the last month of its year. -/
def gameOverState : GameState :=
  { alive := false, month := 12, year := 5, population := 0, food := 100, power := 100,
    victory_message := extinctionMsg 5, sectors := [] }

/-- A state too poor to repair (materials 30 < 40) with a pristine sector. -/
def poorRepairState : GameState :=
  { materials := 30, cursor := 1, population := 10, food := 200, power := 200,
    sectors := [{ level := 1, sector_type := .residential, health := 100, workers := 3 }] }

/-- A state rich enough to build. -/
def richBuildState : GameState :=
  { materials := 100, population := 10, food := 200, power := 200,
    sectors := [{ level := 1, sector_type := .power, health := 100, workers := 5 }] }

/-- A state with exactly 30 citizens, too few for emergency rations. -/
def smallTownState : GameState := { population := 30 }

/-- A broke state whose level-3 sector is the dilemma target. -/
def brokeDilemmaState : GameState :=
  { materials := 0,
    sectors := [{ level := 3, sector_type := .farms, health := 50, workers := 4 }] }

/-- A run of the game from a fresh world, all randomness drawn from the
exhausted tape: two festivals around an emergency cull, then waiting while
the food runs out. -/
def world0 : GameState := (init_simulation []).1

def world1 : GameState := advance_turn "boost_morale" [] world0

def world2 : GameState := advance_turn "emergency_rations" [] world1

def world3 : GameState := advance_turn "boost_morale" [] world2

def world4 : GameState := advance_turn "wait" [] world3

def world5 : GameState := advance_turn "wait" [] world4

def world6 : GameState := advance_turn "wait" [] world5

def world7 : GameState := advance_turn "wait" [] world6

/-- The level multiset of the tower, the data whose shape the engine must
preserve. -/
def levelsOf (s : GameState) : List ℕ := s.sectors.map (·.level)

/-- The shape invariant of the tower: levels are exactly 1..n in order and
the tower fits under its height bound. -/
def shapeOk (s : GameState) : Prop :=
  levelsOf s = List.range' 1 s.sectors.length ∧ s.sectors.length ≤ s.max_height

/-- Transition frame used throughout the pipeline: resources never drop,
liveness is untouched, the tower shape is untouched. -/
def tame (s₁ s₂ : GameState) : Prop :=
  s₁.food ≤ s₂.food ∧ s₁.power ≤ s₂.power ∧ s₂.alive = s₁.alive ∧
    levelsOf s₂ = levelsOf s₁ ∧ s₂.max_height = s₁.max_height

/-! # Theorems -/

theorem tame_refl (s : GameState) : tame s s :=
  ⟨le_refl _, le_refl _, rfl, rfl, rfl⟩

theorem tame_trans {a b c : GameState} (h₁ : tame a b) (h₂ : tame b c) : tame a c :=
  ⟨h₁.1.trans h₂.1, h₁.2.1.trans h₂.2.1, h₂.2.2.1.trans h₁.2.2.1,
    h₂.2.2.2.1.trans h₁.2.2.2.1, h₂.2.2.2.2.trans h₁.2.2.2.2⟩

theorem foldl_preserve {P : β → Prop} (f : β → α → β) (l : List α)
    (h : ∀ b a, P b → P (f b a)) : ∀ b, P b → P (l.foldl f b) := by
  induction l with
  | nil => exact fun b hb => hb
  | cons x xs ih => exact fun b hb => ih _ (h _ _ hb)

theorem modifyFirst_map_eq {g : α → β} (p : α → Bool) (f : α → α)
    (h : ∀ x, g (f x) = g x) : ∀ l : List α, (modifyFirst p f l).map g = l.map g := by
  intro l
  induction l with
  | nil => rfl
  | cons x xs ih =>
      unfold modifyFirst
      by_cases hp : p x <;> simp [hp, ih, h]

theorem modifyIdx_map_eq {g : α → β} (f : α → α) (h : ∀ x, g (f x) = g x) :
    ∀ (i : ℕ) (l : List α), (modifyIdx f i l).map g = l.map g := by
  intro i l
  induction l generalizing i with
  | nil => cases i <;> rfl
  | cons x xs ih =>
      cases i with
      | zero => simp [modifyIdx, h]
      | succ j => simp [modifyIdx, ih]

theorem add_event_frame (m c : String) (s : GameState) :
    (add_event m c s).food = s.food ∧ (add_event m c s).power = s.power ∧
    (add_event m c s).alive = s.alive ∧ (add_event m c s).sectors = s.sectors ∧
    (add_event m c s).max_height = s.max_height ∧
    (add_event m c s).population = s.population ∧
    (add_event m c s).materials = s.materials ∧
    (add_event m c s).morale = s.morale ∧
    (add_event m c s).month = s.month ∧ (add_event m c s).year = s.year ∧
    (add_event m c s).current_dilemma = s.current_dilemma ∧
    (add_event m c s).cursor = s.cursor :=
  ⟨rfl, rfl, rfl, rfl, rfl, rfl, rfl, rfl, rfl, rfl, rfl, rfl⟩

theorem tame_add_event (m c : String) (s : GameState) : tame s (add_event m c s) :=
  ⟨le_refl _, le_refl _, rfl, rfl, rfl⟩

theorem tame_updateSector (lv : ℕ) (f : Sector → Sector)
    (h : ∀ x, (f x).level = x.level) (s : GameState) : tame s (updateSector lv f s) :=
  ⟨le_refl _, le_refl _, rfl, modifyFirst_map_eq _ _ h _, rfl⟩

theorem tame_updateSectorZ (lv : ℤ) (f : Sector → Sector)
    (h : ∀ x, (f x).level = x.level) (s : GameState) : tame s (updateSectorZ lv f s) :=
  ⟨le_refl _, le_refl _, rfl, modifyFirst_map_eq _ _ h _, rfl⟩

theorem tame_modifyIdx (f : Sector → Sector) (h : ∀ x, (f x).level = x.level)
    (i : ℕ) (s : GameState) :
    tame s { s with sectors := modifyIdx f i s.sectors } :=
  ⟨le_refl _, le_refl _, rfl, modifyIdx_map_eq _ h _ _, rfl⟩

theorem tame_spreadTo (lv : ℤ) (st : GameState × Tape) : tame st.1 (spreadTo lv st).1 := by
  unfold spreadTo
  split
  · exact tame_refl _
  · split
    · exact tame_refl _
    · dsimp only
      split
      · refine tame_trans (tame_updateSectorZ _ _ ?_ _) (tame_add_event _ _ _)
        intro x
        rfl
      · exact tame_refl _

theorem tame_fireDamaged (i : ℕ) (st : GameState × Tape) : tame st.1 (fireDamaged i st).1 := by
  refine tame_modifyIdx _ ?_ _ _
  intro x
  rfl

theorem tame_spreadBoth (lv : ℤ) (st : GameState × Tape) :
    tame st.1 (spreadBoth lv st).1 :=
  tame_trans (tame_spreadTo (lv - 1) st) (tame_spreadTo (lv + 1) (spreadTo (lv - 1) st))

theorem tame_fireSpread (lv : ℤ) (ft : ℕ) (st : GameState × Tape) :
    tame st.1 (fireSpread lv ft st).1 := by
  unfold fireSpread
  split
  · dsimp only
    split
    · exact tame_spreadBoth _ _
    · exact tame_refl _
  · exact tame_refl _

theorem tame_fireBurnout (i lv ft : ℕ) (st : GameState × Tape) :
    tame st.1 (fireBurnout i lv ft st).1 := by
  unfold fireBurnout
  split
  · dsimp only
    split
    · refine tame_trans (tame_modifyIdx _ ?_ _ _) (tame_add_event _ _ _)
      intro x
      rfl
    · exact tame_refl _
  · exact tame_refl _

theorem tame_fireStep (i : ℕ) (st : GameState × Tape) : tame st.1 (fireStep i st).1 := by
  unfold fireStep
  split
  · exact tame_refl _
  · split
    · exact tame_trans (tame_fireDamaged i st)
        (tame_trans (tame_fireSpread _ _ (fireDamaged i st))
          (tame_fireBurnout _ _ _ (fireSpread _ _ (fireDamaged i st))))
    · exact tame_refl _

theorem tame_propagate_disasters (s : GameState) (t : Tape) :
    tame s (propagate_disasters s t).1 := by
  unfold propagate_disasters
  exact foldl_preserve (P := fun st : GameState × Tape => tame s st.1)
    (fun st i => fireStep i st) _
    (fun st i h => tame_trans h (tame_fireStep i st)) (s, t) (tame_refl s)

theorem tame_collapseCascade (lv : ℤ) (st : GameState × Tape) :
    tame st.1 (collapseCascade lv st).1 := by
  unfold collapseCascade
  dsimp only
  split
  · split
    · refine tame_trans (tame_updateSectorZ _ _ ?_ _) (tame_add_event _ _ _)
      intro x
      rfl
    · exact tame_refl _
  · exact tame_refl _

theorem tame_decayCollapse (i : ℕ) (sec : Sector) (st : GameState × Tape) :
    tame st.1 (decayCollapse i sec st).1 := by
  unfold decayCollapse
  refine tame_trans ?_ (tame_collapseCascade _ _)
  refine tame_trans ?_ (tame_add_event _ _ _)
  refine ⟨le_refl _, le_refl _, rfl, ?_, rfl⟩
  refine modifyIdx_map_eq _ ?_ _ _
  intro x
  rfl

theorem tame_decayDamaged (i : ℕ) (h' : ℚ) (st : GameState × Tape) :
    tame st.1 (decayDamaged i h' st).1 := by
  refine tame_modifyIdx _ ?_ _ _
  intro x
  rfl

theorem tame_decayStep (i : ℕ) (st : GameState × Tape) : tame st.1 (decayStep i st).1 := by
  unfold decayStep
  split
  · exact tame_refl _
  · split
    · exact tame_trans (tame_decayDamaged _ _ st)
        (tame_decayCollapse _ _ (decayDamaged _ _ st))
    · exact tame_decayDamaged _ _ st

theorem tame_decay_phase (s : GameState) (t : Tape) : tame s (decay_phase s t).1 := by
  unfold decay_phase
  exact foldl_preserve (P := fun st : GameState × Tape => tame s st.1)
    (fun st i => decayStep i st) _
    (fun st i h => tame_trans h (tame_decayStep i st)) (s, t) (tame_refl s)

theorem tame_starvation_check (s : GameState) : tame s (starvation_check s) := by
  unfold starvation_check
  split
  · exact ⟨le_of_lt (by assumption), le_refl _, rfl, rfl, rfl⟩
  · exact tame_refl _

theorem tame_blackoutDamage (lv : ℕ) (s : GameState) : tame s (blackoutDamage lv s) := by
  unfold blackoutDamage
  refine tame_trans (tame_updateSector _ _ ?_ s) (tame_add_event _ _ _)
  intro x
  rfl

theorem tame_blackout_check (s : GameState) (t : Tape) : tame s (blackout_check s t).1 := by
  unfold blackout_check
  split
  · rename_i hp
    dsimp only
    split
    · exact ⟨le_refl _, le_of_lt hp, rfl, rfl, rfl⟩
    · refine tame_trans (b := blackoutDamage
        (randChoice (List.filter (fun x => x.is_functional)
          ({ s with morale := s.morale - 15 } : GameState).sectors) t).1.level
        { s with morale := s.morale - 15 }) ?_ ?_
      · refine tame_trans (b := { s with morale := s.morale - 15 })
          ⟨le_refl _, le_refl _, rfl, rfl, rfl⟩ (tame_blackoutDamage _ _)
      · exact ⟨le_refl _, le_of_lt hp, rfl, rfl, rfl⟩
  · exact tame_refl _

theorem tame_moraleFlee (fled : ℕ) (s : GameState) : tame s (moraleFlee fled s) := by
  unfold moraleFlee
  refine tame_trans (b := { s with population := s.population - fled })
    ⟨le_refl _, le_refl _, rfl, rfl, rfl⟩ (tame_add_event _ _ _)

theorem tame_moraleRegen (s : GameState) : tame s (moraleRegen s) := by
  unfold moraleRegen
  split
  · exact ⟨le_refl _, le_refl _, rfl, rfl, rfl⟩
  · exact tame_refl _

theorem tame_moraleGrow (growth : ℕ) (s : GameState) : tame s (moraleGrow growth s) :=
  ⟨le_refl _, le_refl _, rfl, rfl, rfl⟩

theorem tame_morale_phase (s : GameState) (t : Tape) : tame s (morale_phase s t).1 := by
  unfold morale_phase
  dsimp only
  split
  · split
    · exact tame_trans (tame_moraleFlee _ s)
        (tame_trans (tame_moraleRegen _) (tame_moraleGrow _ _))
    · exact tame_trans (tame_moraleFlee _ s) (tame_moraleRegen _)
  · split
    · exact tame_trans (tame_moraleRegen _) (tame_moraleGrow _ _)
    · exact tame_moraleRegen _

theorem tame_quakeHits (levels : List ℕ) :
    ∀ (s : GameState) (t : Tape) (cas : ℤ), tame s (quakeHits levels s t cas).1 := by
  induction levels with
  | nil => exact fun s t cas => tame_refl s
  | cons lv rest ih =>
      intro s t cas
      unfold quakeHits
      refine tame_trans (tame_updateSector lv _ ?_ s) (ih _ _ _)
      intro x
      rfl

theorem tame_quakeAftermath (affected : ℕ) (hit : GameState × Tape × ℤ) :
    tame hit.1 (quakeAftermath affected hit).1 := by
  unfold quakeAftermath
  refine tame_trans (b := { hit.1 with population := hit.1.population - hit.2.2, morale := hit.1.morale - 20 }) ⟨le_refl _, le_refl _, rfl, rfl, rfl⟩ (tame_add_event _ _ _)

theorem tame_crisis_earthquake (s : GameState) (t : Tape) :
    tame s (crisis_earthquake s t).1 := by
  unfold crisis_earthquake
  dsimp only
  exact tame_trans (tame_quakeHits _ s _ 0) (tame_quakeAftermath _ _)

theorem tame_crisis_fire (s : GameState) (t : Tape) : tame s (crisis_fire s t).1 := by
  unfold crisis_fire
  dsimp only
  refine tame_trans (tame_updateSector _ _ ?_ s) (tame_add_event _ _ _)
  intro x
  rfl

theorem tame_crisis_disease (s : GameState) (t : Tape) : tame s (crisis_disease s t).1 := by
  unfold crisis_disease
  dsimp only
  refine tame_trans ?_ (tame_add_event _ _ _)
  exact ⟨le_refl _, le_refl _, rfl, rfl, rfl⟩

theorem tame_wreckSector (st : GameState) (sec : Sector) : tame st (wreckSector st sec) := by
  unfold wreckSector
  refine tame_updateSector _ _ ?_ st
  intro x
  rfl

theorem tame_structuralAftermath (levels_lost : ℕ) (casualties : ℤ) (s : GameState) :
    tame s (structuralAftermath levels_lost casualties s) := by
  unfold structuralAftermath
  refine tame_trans (b := { s with population := s.population - casualties })
    ⟨le_refl _, le_refl _, rfl, rfl, rfl⟩ (tame_add_event _ _ _)

theorem tame_crisis_structural_failure (s : GameState) (t : Tape) :
    tame s (crisis_structural_failure s t).1 := by
  unfold crisis_structural_failure
  dsimp only
  refine tame_trans ?_ (tame_structuralAftermath _ _ _)
  exact foldl_preserve (P := fun s' => tame s s') wreckSector _
    (fun s' sec h => tame_trans h (tame_wreckSector s' sec)) s (tame_refl s)

theorem tame_riotAftermath (lv deaths : ℕ) (s : GameState) :
    tame s (riotAftermath lv deaths s) := by
  unfold riotAftermath
  refine tame_trans (b := { s with morale := s.morale - 25, population := s.population - deaths }) ⟨le_refl _, le_refl _, rfl, rfl, rfl⟩ (tame_add_event _ _ _)

theorem tame_crisis_riot (s : GameState) (t : Tape) : tame s (crisis_riot s t).1 := by
  unfold crisis_riot
  dsimp only
  refine tame_trans (tame_updateSector _ _ ?_ s) (tame_riotAftermath _ _ _)
  intro x
  rfl

theorem tame_trigger_crisis (s : GameState) (t : Tape) : tame s (trigger_crisis s t).1 := by
  unfold trigger_crisis
  dsimp only
  split
  · exact tame_crisis_earthquake _ _
  · exact tame_crisis_fire _ _
  · exact tame_crisis_disease _ _
  · exact tame_crisis_structural_failure _ _
  · exact tame_crisis_riot _ _

theorem tame_trigger_minor_event (s : GameState) (t : Tape) :
    tame s (trigger_minor_event s t).1 := by
  unfold trigger_minor_event
  dsimp only
  split
  · refine tame_trans ?_ (tame_add_event _ _ _)
    exact ⟨le_refl _, le_refl _, rfl, rfl, rfl⟩
  · refine tame_trans ?_ (tame_add_event _ _ _)
    exact ⟨le_refl _, le_refl _, rfl, rfl, rfl⟩
  · refine tame_trans ?_ (tame_add_event _ _ _)
    exact ⟨le_refl _, le_add_of_nonneg_right (Nat.cast_nonneg _), rfl, rfl, rfl⟩
  · refine tame_trans ?_ (tame_add_event _ _ _)
    exact ⟨le_add_of_nonneg_right (Nat.cast_nonneg _), le_refl _, rfl, rfl, rfl⟩

theorem tame_create_dilemma (s : GameState) (t : Tape) : tame s (create_dilemma s t).1 := by
  unfold create_dilemma
  dsimp only
  split
  · exact tame_refl _
  · exact ⟨le_refl _, le_refl _, rfl, rfl, rfl⟩

theorem tame_crisisReset (st : GameState × Tape) : tame st.1 (crisisReset st).1 :=
  ⟨le_refl _, le_refl _, rfl, rfl, rfl⟩

theorem tame_pacing_crisis (s : GameState) (t : Tape) : tame s (pacing_crisis s t).1 := by
  unfold pacing_crisis
  split
  · exact tame_trans (tame_trigger_crisis s t) (tame_crisisReset _)
  · split
    · dsimp only
      split
      · exact tame_trans (tame_trigger_crisis s _) (tame_crisisReset _)
      · exact tame_refl _
    · exact tame_refl _

theorem tame_pacing_minor (st : GameState × Tape) : tame st.1 (pacing_minor st).1 := by
  unfold pacing_minor
  dsimp only
  split
  · exact tame_trigger_minor_event _ _
  · exact tame_refl _

theorem tame_pacing_dilemma (st : GameState × Tape) : tame st.1 (pacing_dilemma st).1 := by
  unfold pacing_dilemma
  split
  · dsimp only
    split
    · exact tame_create_dilemma _ _
    · exact tame_refl _
  · exact tame_refl _

theorem tame_pacing_phase (s : GameState) (t : Tape) : tame s (pacing_phase s t).1 := by
  unfold pacing_phase
  refine tame_trans (b := { s with tension := s.tension + 2.5 })
    ⟨le_refl _, le_refl _, rfl, rfl, rfl⟩ ?_
  exact tame_trans (tame_pacing_crisis _ t)
    (tame_trans (tame_pacing_minor (pacing_crisis _ t))
      (tame_pacing_dilemma (pacing_minor (pacing_crisis _ t))))

theorem tame_clock_advance (s : GameState) : tame s (clock_advance s) := by
  unfold clock_advance
  dsimp only
  split
  · exact ⟨le_refl _, le_refl _, rfl, rfl, rfl⟩
  · exact ⟨le_refl _, le_refl _, rfl, rfl, rfl⟩

theorem is_functional_health {sec : Sector} (h : sec.is_functional = true) :
    20 < sec.health := by
  unfold Sector.is_functional at h
  simp only [Bool.and_eq_true, decide_eq_true_eq] at h
  exact h.1

theorem prodStep_nonneg (acc : ℚ × ℚ × ℚ) (sec : Sector)
    (h : 0 ≤ acc.1 ∧ 0 ≤ acc.2.1 ∧ 0 ≤ acc.2.2) :
    0 ≤ (prodStep acc sec).1 ∧ 0 ≤ (prodStep acc sec).2.1 ∧ 0 ≤ (prodStep acc sec).2.2 := by
  unfold prodStep
  split
  · rename_i hf
    have hh : (0 : ℚ) ≤ sec.health / 100 := by
      have h20 := is_functional_health hf
      have : (0 : ℚ) ≤ sec.health := by linarith
      exact div_nonneg this (by norm_num)
    have hw : (0 : ℚ) ≤ (sec.workers : ℚ) := Nat.cast_nonneg _
    dsimp only
    split
    · exact ⟨add_nonneg h.1 (mul_nonneg (mul_nonneg hw (by norm_num)) hh), h.2.1, h.2.2⟩
    · exact ⟨h.1, add_nonneg h.2.1 (mul_nonneg (mul_nonneg hw (by norm_num)) hh), h.2.2⟩
    · exact ⟨h.1, h.2.1, add_nonneg h.2.2 (mul_nonneg (mul_nonneg hw (by norm_num)) hh)⟩
    · exact h
  · exact h

theorem tame_production (s : GameState) : tame s (production s) := by
  unfold production
  dsimp only
  have h := foldl_preserve
    (P := fun acc : ℚ × ℚ × ℚ => 0 ≤ acc.1 ∧ 0 ≤ acc.2.1 ∧ 0 ≤ acc.2.2)
    prodStep s.sectors (fun acc sec hh => prodStep_nonneg acc sec hh)
    (0, 0, 0) ⟨le_refl 0, le_refl 0, le_refl 0⟩
  exact ⟨le_add_of_nonneg_right h.2.1, le_add_of_nonneg_right h.1, rfl, rfl, rfl⟩

theorem starvation_food_nonneg (s : GameState) : 0 ≤ (starvation_check s).food := by
  unfold starvation_check
  split
  · exact le_refl 0
  · rename_i h
    exact le_of_not_lt h

theorem blackout_food_eq (s : GameState) (t : Tape) : (blackout_check s t).1.food = s.food := by
  unfold blackout_check
  split
  · dsimp only
    split
    · rfl
    · rfl
  · rfl

theorem blackout_power_nonneg (s : GameState) (t : Tape) : 0 ≤ (blackout_check s t).1.power := by
  unfold blackout_check
  split
  · dsimp only
    split
    · exact le_refl 0
    · exact le_refl 0
  · rename_i h
    exact le_of_not_lt h

theorem clamp_nonneg (s : GameState) (t : Tape) :
    0 ≤ (blackout_check (starvation_check s) t).1.food ∧
    0 ≤ (blackout_check (starvation_check s) t).1.power := by
  constructor
  · rw [blackout_food_eq]
    exact starvation_food_nonneg s
  · exact blackout_power_nonneg _ t

theorem tame_post_clamp (s : GameState) (t : Tape) : tame s (post_clamp s t).1 := by
  unfold post_clamp
  dsimp only
  exact tame_trans (tame_propagate_disasters s t)
    (tame_trans (tame_decay_phase _ _)
      (tame_trans (tame_morale_phase _ _) (tame_pacing_phase _ _)))

theorem win_lose_frame (s : GameState) :
    (win_lose s).food = s.food ∧ (win_lose s).power = s.power ∧
    levelsOf (win_lose s) = levelsOf s ∧ (win_lose s).max_height = s.max_height ∧
    (s.alive = false → (win_lose s).alive = false) := by
  unfold win_lose
  dsimp only
  repeat' split
  all_goals
    first
    | exact ⟨rfl, rfl, rfl, rfl, fun _ => rfl⟩
    | exact ⟨rfl, rfl, rfl, rfl, fun h => h⟩

theorem consumption_alive (s : GameState) : (consumption s).alive = s.alive := rfl

theorem process_action_alive (a : String) (s : GameState) (t : Tape) :
    (process_action a s t).1.alive = s.alive := by
  unfold process_action
  dsimp only
  repeat' split
  all_goals rfl

theorem preTerminal_alive (a : String) (s : GameState) (t : Tape) :
    (preTerminal a s t).1.alive = s.alive := by
  unfold preTerminal
  dsimp only
  rw [(tame_post_clamp _ _).2.2.1, (tame_blackout_check _ _).2.2.1,
    (tame_starvation_check _).2.2.1, consumption_alive, (tame_production _).2.2.1]
  split
  · rw [process_action_alive, (tame_clock_advance _).2.2.1]
  · exact (tame_clock_advance _).2.2.1

theorem strStartsWith_false_not {a pre : String} (h : strStartsWith a pre = false) :
    ¬ (strStartsWith a pre = true) := by
  rw [h]
  exact Bool.false_ne_true

/-- Fall-through of _process_action: no branch matches. -/
theorem process_action_other (a : String) (s : GameState) (t : Tape)
    (h1 : a ≠ "repair") (h2 : a ≠ "extinguish") (h3 : strStartsWith a "build" = false)
    (h4 : a ≠ "boost_morale") (h5 : a ≠ "emergency_rations") :
    process_action a s t = (s, t) := by
  unfold process_action
  rw [if_neg h1, if_neg h2, if_neg (strStartsWith_false_not h3), if_neg h4, if_neg h5]

theorem boost_morale_adds_30 (s : GameState) (t : Tape)
    (hf : 40 ≤ s.food) (hp : 20 ≤ s.power) :
    (process_action "boost_morale" s t).1.morale = s.morale + 30 := by
  unfold process_action
  rw [if_neg (by decide : ¬("boost_morale" = "repair")),
    if_neg (by decide : ¬("boost_morale" = "extinguish")),
    if_neg (strStartsWith_false_not (by decide)), if_pos rfl, if_pos ⟨hf, hp⟩]
  rfl

theorem crisis_disease_morale (s : GameState) (t : Tape) :
    (crisis_disease s t).1.morale = s.morale - 30 := rfl

theorem functionalCount_update (s : GameState) (pop : ℤ) (al : Bool) (vm : String) :
    functionalCount { s with population := pop, alive := al, victory_message := vm } =
      functionalCount s := rfl

theorem functionalCount_update2 (s : GameState) (al : Bool) (vm : String) :
    functionalCount { s with alive := al, victory_message := vm } = functionalCount s := rfl

theorem win_lose_message (s : GameState) :
    (win_lose s).victory_message =
      if s.year ≥ 50 then legendaryMsg s.year (if s.population ≤ 0 then 0 else s.population)
      else if functionalCount s = 0 then collapseMsg s.year
      else if s.population ≤ 0 then extinctionMsg s.year
      else s.victory_message := by
  unfold win_lose
  dsimp only
  by_cases h1 : s.population ≤ 0
  · rw [if_pos h1, if_pos h1, functionalCount_update]
    by_cases h2 : functionalCount s = 0
    · rw [if_pos h2]
      dsimp only
      by_cases h3 : s.year ≥ 50
      · rw [if_pos h3, if_pos h3]
      · rw [if_neg h3, if_neg h3, if_pos h2]
    · rw [if_neg h2]
      dsimp only
      by_cases h3 : s.year ≥ 50
      · rw [if_pos h3, if_pos h3]
      · rw [if_neg h3, if_neg h3, if_neg h2, if_pos h1]
  · rw [if_neg h1, if_neg h1]
    by_cases h2 : functionalCount s = 0
    · rw [if_pos h2, functionalCount_update2]
      dsimp only
      by_cases h3 : s.year ≥ 50
      · rw [if_pos h3, if_pos h3]
      · rw [if_neg h3, if_neg h3, if_pos h2]
    · rw [if_neg h2]
      by_cases h3 : s.year ≥ 50
      · rw [if_pos h3, if_pos h3]
      · rw [if_neg h3, if_neg h3, if_neg h2, if_neg h1]

/-- C3 (amended): the engine never resurrects a dead world; `alive` stays
false through every further call, whatever the action and randomness. -/
theorem C3_dead_never_revives (a : String) (t : Tape) (s : GameState)
    (h : s.alive = false) : (advance_turn a t s).alive = false := by
  unfold advance_turn
  refine (win_lose_frame _).2.2.2.2 ?_
  rw [preTerminal_alive]
  exact h

/-- C5 (amended): in the action-resolution phase, repair with materials < 40
only appends the rejection log entry; materials and every sector health are
untouched by that phase (later pipeline phases still run). -/
theorem C5_repair_reject_logs_only (s : GameState) (t : Tape) (h : s.materials < 40) :
    process_action "repair" s t = (add_event "❌ Need 40 materials" "red" s, t) := by
  unfold process_action
  rw [if_pos rfl]
  cases hg : get_sector s s.cursor with
  | none => rfl
  | some sec =>
      dsimp only
      rw [if_neg (not_le.mpr h)]

/-- C6 (amended): an action tag outside every recognized branch — not equal
to repair / extinguish / boost_morale / emergency_rations and not starting
with "build" — makes advance_turn behave exactly like "wait". -/
theorem C6_unrecognized_acts_as_wait (a : String) (t : Tape) (s : GameState)
    (h1 : a ≠ "repair") (h2 : a ≠ "extinguish") (h3 : strStartsWith a "build" = false)
    (h4 : a ≠ "boost_morale") (h5 : a ≠ "emergency_rations") :
    advance_turn a t s = advance_turn "wait" t s := by
  by_cases hw : a = "wait"
  · rw [hw]
  · unfold advance_turn preTerminal
    dsimp only
    rw [if_pos hw, if_neg (by decide : ¬("wait" ≠ "wait")),
      process_action_other a _ t h1 h2 h3 h4 h5]

/-- C7 (amended): emergency_rations with population ≤ 30 is a silent no-op
of the action phase: no state change and, unlike the other failing actions,
no rejection log entry. -/
theorem C7_rations_fail_is_silent (s : GameState) (t : Tape) (h : s.population ≤ 30) :
    process_action "emergency_rations" s t = (s, t) := by
  unfold process_action
  rw [if_neg (by decide : ¬("emergency_rations" = "repair")),
    if_neg (by decide : ¬("emergency_rations" = "extinguish")),
    if_neg (strStartsWith_false_not (by decide)),
    if_neg (by decide : ¬("emergency_rations" = "boost_morale")),
    if_pos rfl, if_neg (not_lt.mpr h)]

/-- C2 (amended): the dilemma gate lives in the SpireApp driver, not in
advance_turn: a UI action submission while a dilemma is outstanding returns
the state untouched. -/
theorem C2_dilemma_gate_is_ui_level (g : Bool) (a : String) (s : GameState) (t : Tape)
    (h : s.current_dilemma.isSome = true) : uiSubmitAction g a s t = s := by
  unfold uiSubmitAction
  simp [h]

theorem shape_transport {s₁ s₂ : GameState} (hlev : levelsOf s₂ = levelsOf s₁)
    (hmax : s₂.max_height = s₁.max_height) (hs : shapeOk s₁) : shapeOk s₂ := by
  have hlen : s₂.sectors.length = s₁.sectors.length := by
    have h := congrArg List.length hlev
    simpa [levelsOf] using h
  exact ⟨by rw [hlev, hlen, hs.1], by rw [hlen, hmax]; exact hs.2⟩

theorem shapeOk_of_tame {s₁ s₂ : GameState} (h : tame s₁ s₂) (hs : shapeOk s₁) :
    shapeOk s₂ :=
  shape_transport h.2.2.2.1 h.2.2.2.2 hs

theorem build_append_sorted (s : GameState) (hs : shapeOk s) (ns : Sector)
    (hl : ns.level = s.sectors.length + 1) :
    sortSectors (s.sectors ++ [ns]) = s.sectors ++ [ns] := by
  unfold sortSectors
  refine List.Sorted.insertionSort_eq ?_
  refine List.pairwise_append.mpr ⟨?_, List.pairwise_singleton _ _, ?_⟩
  · have h1 : List.Pairwise (· < ·) (s.sectors.map (·.level)) := by
      rw [show s.sectors.map (·.level) = levelsOf s from rfl, hs.1]
      exact List.pairwise_lt_range' 1 _
    exact (List.pairwise_map.mp h1).imp (fun h => le_of_lt h)
  · intro a ha b hb
    have hb' : b = ns := by simpa using hb
    subst hb'
    have hm : a.level ∈ levelsOf s := List.mem_map_of_mem _ ha
    rw [hs.1] at hm
    have := (List.mem_range'_1.mp hm).2
    rw [hl]
    omega

theorem build_levels (s : GameState) (hs : shapeOk s) (ns : Sector)
    (hl : ns.level = s.sectors.length + 1) :
    (s.sectors ++ [ns]).map (·.level) = List.range' 1 (s.sectors.length + 1) := by
  rw [List.map_append, show (s.sectors.map (·.level)) = List.range' 1 s.sectors.length from hs.1,
    List.range'_concat]
  have h1 : 1 + 1 * s.sectors.length = s.sectors.length + 1 := by omega
  rw [h1]
  simp [hl]

theorem shapeOk_build (s : GameState) (hs : shapeOk s) (ns : Sector) (m c : String) (q : ℚ)
    (hl : ns.level = s.sectors.length + 1) (hh : s.sectors.length + 1 ≤ s.max_height) :
    shapeOk (add_event m c
      { s with materials := q, sectors := sortSectors (s.sectors ++ [ns]) }) := by
  have hb := build_append_sorted s hs ns hl
  have hlv := build_levels s hs ns hl
  constructor
  · show (sortSectors (s.sectors ++ [ns])).map (·.level)
      = List.range' 1 (sortSectors (s.sectors ++ [ns])).length
    rw [hb, hlv, List.length_append]
    rfl
  · show (sortSectors (s.sectors ++ [ns])).length ≤ s.max_height
    rw [hb, List.length_append]
    simpa using hh

theorem shapeOk_process_action (a : String) (s : GameState) (t : Tape)
    (hs : shapeOk s) : shapeOk (process_action a s t).1 := by
  unfold process_action
  dsimp only
  repeat' split
  all_goals first
    | exact hs
    | exact shape_transport rfl rfl hs
    | (refine shape_transport (modifyFirst_map_eq _ _ (fun x => ?_) _) rfl hs
       rfl)
    | exact shapeOk_build s hs _ _ _ _ rfl (by omega)

theorem shapeOk_pipeline (s₁ : GameState) (t₁ : Tape) (h : shapeOk s₁) :
    shapeOk (win_lose (post_clamp
      (blackout_check (starvation_check (consumption (production s₁))) t₁).1
      (blackout_check (starvation_check (consumption (production s₁))) t₁).2).1) := by
  have h2 : shapeOk (consumption (production s₁)) := shape_transport rfl rfl h
  have h3 : shapeOk (blackout_check (starvation_check (consumption (production s₁))) t₁).1 :=
    shapeOk_of_tame (tame_trans (tame_starvation_check _) (tame_blackout_check _ _)) h2
  exact shape_transport (win_lose_frame _).2.2.1 (win_lose_frame _).2.2.2.1
    (shapeOk_of_tame (tame_post_clamp _ _) h3)

theorem shapeOk_advance_turn (a : String) (t : Tape) (s : GameState) (hs : shapeOk s) :
    shapeOk (advance_turn a t s) := by
  unfold advance_turn preTerminal
  dsimp only
  have h0 : shapeOk (clock_advance s) := shapeOk_of_tame (tame_clock_advance s) hs
  split
  · exact shapeOk_pipeline _ _ (shapeOk_process_action _ _ _ h0)
  · exact shapeOk_pipeline _ _ h0

theorem initial_tower_levels (t : Tape) :
    (initial_tower t).1.map (·.level) = List.range' 1 8 ∧ (initial_tower t).1.length = 8 := by
  unfold initial_tower
  dsimp only [List.foldl]
  constructor
  · simp [List.map_append]
    decide
  · simp

theorem shapeOk_init (t : Tape) : shapeOk (init_simulation t).1 := by
  unfold init_simulation
  dsimp only
  constructor
  · show (initial_tower t).1.map (·.level) = List.range' 1 (initial_tower t).1.length
    rw [(initial_tower_levels t).1, (initial_tower_levels t).2]
  · show (initial_tower t).1.length ≤ 12
    rw [(initial_tower_levels t).2]
    omega

theorem shapeOk_reachable (s : GameState) (h : Reachable s) : shapeOk s := by
  induction h with
  | init t => exact shapeOk_init t
  | step s' a t h' ih => exact shapeOk_advance_turn a t s' ih

theorem nonneg_pipeline (s₁ : GameState) (t₁ : Tape) :
    0 ≤ (win_lose (post_clamp
      (blackout_check (starvation_check (consumption (production s₁))) t₁).1
      (blackout_check (starvation_check (consumption (production s₁))) t₁).2).1).food ∧
    0 ≤ (win_lose (post_clamp
      (blackout_check (starvation_check (consumption (production s₁))) t₁).1
      (blackout_check (starvation_check (consumption (production s₁))) t₁).2).1).power := by
  have hb := clamp_nonneg (consumption (production s₁)) t₁
  have ht := tame_post_clamp
    (blackout_check (starvation_check (consumption (production s₁))) t₁).1
    (blackout_check (starvation_check (consumption (production s₁))) t₁).2
  constructor
  · rw [(win_lose_frame _).1]
    exact le_trans hb.1 ht.1
  · rw [(win_lose_frame _).2.1]
    exact le_trans hb.2 ht.2.1

/-- C4: after any advance_turn — whatever the action, prior state and random
draws — food and power are non-negative: phase 5 clamps both and no later
phase of the call subtracts from either pool. -/
theorem C4_resources_nonneg (a : String) (t : Tape) (s : GameState) :
    0 ≤ (advance_turn a t s).food ∧ 0 ≤ (advance_turn a t s).power := by
  unfold advance_turn preTerminal
  dsimp only
  split
  · exact nonneg_pipeline _ _
  · exact nonneg_pipeline _ _

/-- C1 (amended): phase 10 runs its three checks as independent overwrites,
so the LAST matching check wins, not the first: year-50 beats
total-collapse beats extinction; only when no check matches is the message
left unchanged. -/
theorem C1_terminal_last_match_wins (s : GameState) :
    (win_lose s).victory_message =
      if s.year ≥ 50 then legendaryMsg s.year (if s.population ≤ 0 then 0 else s.population)
      else if functionalCount s = 0 then collapseMsg s.year
      else if s.population ≤ 0 then extinctionMsg s.year
      else s.victory_message :=
  win_lose_message s

/-- C8: every state reachable by advance_turn calls from a fresh world has
pairwise-distinct sector levels and respects the height bound. -/
theorem C8_level_uniqueness (s : GameState) (h : Reachable s) :
    (levelsOf s).Nodup ∧ s.sectors.length ≤ s.max_height := by
  have key := shapeOk_reachable s h
  refine ⟨?_, key.2⟩
  rw [key.1]
  exact List.nodup_range' 1 _

theorem C8_level_uniqueness_witness :
    (levelsOf (init_simulation []).1).Nodup ∧
    (init_simulation []).1.sectors.length ≤ (init_simulation []).1.max_height :=
  C8_level_uniqueness _ (Reachable.init [])

theorem add_event_getLast (m c : String) (s : GameState) :
    (add_event m c s).events.getLast? =
      some ("Y" ++ toString s.year ++ "M" ++ toString s.month ++ ": " ++ m, c) := by
  unfold add_event
  dsimp only
  split
  · rename_i h
    cases hE : s.events with
    | nil =>
        rw [hE] at h
        simp at h
    | cons e es =>
        simp [List.getLast?_concat]
  · exact List.getLast?_concat _

theorem find?_modifyFirst {p : α → Bool} (f : α → α)
    (hf : ∀ x, p x = true → p (f x) = true) :
    ∀ l : List α, (modifyFirst p f l).find? p = (l.find? p).map f := by
  intro l
  induction l with
  | nil => rfl
  | cons x xs ih =>
      unfold modifyFirst
      by_cases hp : p x
      · rw [if_pos hp, List.find?_cons_of_pos _ (hf x hp), List.find?_cons_of_pos _ hp]
        rfl
      · rw [if_neg hp, List.find?_cons_of_neg _ (by simpa using hp),
          List.find?_cons_of_neg _ (by simpa using hp)]
        exact ih

theorem get_sector_save (s : GameState) (lv : ℕ) :
    get_sector (save_sector lv s) lv =
      (get_sector s lv).map (fun sec => { sec with health := sec.health + 40 }) := by
  show (modifyFirst (fun sec => sec.level == lv) _ s.sectors).find? _ = _
  refine find?_modifyFirst _ ?_ _
  intro x hx
  exact hx

/-- C9: resolving dilemma option A (the save_sector closure) unconditionally
adds 40 health to the captured target and subtracts 50 materials, logging
success; with materials < 50 the pool goes negative. -/
theorem C9_reinforce_unguarded (s : GameState) (lv : ℕ) (sec : Sector)
    (h : get_sector s lv = some sec) :
    (save_sector lv s).materials = s.materials - 50 ∧
    get_sector (save_sector lv s) lv = some { sec with health := sec.health + 40 } ∧
    (save_sector lv s).events.getLast? =
      some ("Y" ++ toString s.year ++ "M" ++ toString s.month ++ ": "
        ++ ("✅ Level " ++ toString lv ++ " reinforced"), "green") ∧
    (s.materials < 50 → (save_sector lv s).materials < 0) := by
  refine ⟨rfl, ?_, ?_, ?_⟩
  · rw [get_sector_save, h]
    rfl
  · show (add_event _ "green" _).events.getLast? = _
    rw [add_event_getLast]
    rfl
  · intro hm
    show s.materials - 50 < 0
    linarith

theorem reach_world2 : Reachable world2 :=
  Reachable.step _ _ _ (Reachable.step _ _ _ (Reachable.init []))

theorem reach_world7 : Reachable world7 :=
  Reachable.step _ _ _ (Reachable.step _ _ _ (Reachable.step _ _ _ (Reachable.step _ _ _
    (Reachable.step _ _ _ (Reachable.step _ _ _ (Reachable.step _ _ _
      (Reachable.init [])))))))

/-!
The arithmetic of `Rat` is `@[irreducible]` upstream; the concrete-state
evaluations below go through `decide`, whose elaboration needs these
operations to unfold.
-/

attribute [semireducible] Rat.add Rat.mul Rat.sub Rat.inv Rat.ofScientific

/-- C1 counterexample: a state whose turn ends with population 0 and no
functional sector receives the TOTAL COLLAPSE message, not the EXTINCTION
message the claim requires when population ≤ 0. -/
theorem C1_counterexample :
    (preTerminal "wait" deadTowerState []).1.population ≤ 0 ∧
    functionalCount (preTerminal "wait" deadTowerState []).1 = 0 ∧
    (preTerminal "wait" deadTowerState []).1.year < 50 ∧
    (advance_turn "wait" [] deadTowerState).victory_message = collapseMsg 1 ∧
    collapseMsg 1 ≠ extinctionMsg 1 := by
  decide

/-- C2 counterexample: with a dilemma outstanding, advance_turn with a
non-choice action still mutates the World State (month and population
change). -/
theorem C2_counterexample :
    pendingDilemmaState.current_dilemma.isSome = true ∧
    (advance_turn "emergency_rations" [] pendingDilemmaState).month ≠
      pendingDilemmaState.month ∧
    (advance_turn "emergency_rations" [] pendingDilemmaState).population ≠
      pendingDilemmaState.population := by
  decide

theorem C2_dilemma_gate_is_ui_level_witness :
    uiSubmitAction false "repair" pendingDilemmaState [] = pendingDilemmaState :=
  C2_dilemma_gate_is_ui_level false "repair" pendingDilemmaState [] (by decide)

/-- C3 counterexample: on a dead state in month 12, one more advance_turn
changes the observed year. -/
theorem C3_counterexample :
    gameOverState.alive = false ∧
    (advance_turn "wait" [] gameOverState).year ≠ gameOverState.year := by
  decide

theorem C3_dead_never_revives_witness :
    (advance_turn "wait" [] gameOverState).alive = false :=
  C3_dead_never_revives "wait" [] gameOverState (by decide)

/-- C5 counterexample: advance_turn("repair") with materials < 40 still
changes sector health relative to the pre-call state (phase-7 decay runs). -/
theorem C5_counterexample :
    poorRepairState.materials < 40 ∧
    (advance_turn "repair" [] poorRepairState).sectors.map (·.health) ≠
      poorRepairState.sectors.map (·.health) := by
  decide

theorem C5_repair_reject_logs_only_witness :
    process_action "repair" poorRepairState [] =
      (add_event "❌ Need 40 materials" "red" poorRepairState, []) :=
  C5_repair_reject_logs_only poorRepairState [] (by decide)

/-- C6 counterexample: "buildz" is outside the documented tag set yet does
not behave like "wait": it reaches the build branch and appends a sector. -/
theorem C6_counterexample :
    "buildz" ∉ ["wait", "repair", "extinguish", "build_farm", "build_power",
      "build_industry", "build_housing", "boost_morale", "emergency_rations"] ∧
    (advance_turn "buildz" [] richBuildState).sectors.length ≠
      (advance_turn "wait" [] richBuildState).sectors.length := by
  decide

theorem C6_unrecognized_acts_as_wait_witness :
    advance_turn "frobnicate" [] richBuildState = advance_turn "wait" [] richBuildState :=
  C6_unrecognized_acts_as_wait "frobnicate" [] richBuildState (by decide) (by decide)
    (by decide) (by decide) (by decide)

/-- C7 counterexample: emergency_rations at population 30 fails without
appending any rejection entry to the log. -/
theorem C7_counterexample :
    smallTownState.population ≤ 30 ∧
    process_action "emergency_rations" smallTownState [] = (smallTownState, []) ∧
    (process_action "emergency_rations" smallTownState []).1.events.length =
      smallTownState.events.length := by
  decide

theorem C7_rations_fail_is_silent_witness :
    process_action "emergency_rations" smallTownState [] = (smallTownState, []) :=
  C7_rations_fail_is_silent smallTownState [] (by decide)

theorem C9_reinforce_unguarded_witness :
    brokeDilemmaState.materials < 50 ∧ (save_sector 3 brokeDilemmaState).materials < 0 := by
  refine ⟨by decide, ?_⟩
  exact (C9_reinforce_unguarded brokeDilemmaState 3
    { level := 3, sector_type := .farms, health := 50, workers := 4 } (by decide)).2.2.2
    (by decide)

/-- C10: morale is never clamped: boost_morale adds exactly 30 with no upper
cap and the disease crisis subtracts 30 with no floor; from a fresh world a
play sequence reaches morale above 100 and another reaches morale below 0. -/
theorem C10_no_morale_clamp :
    (∀ (s : GameState) (t : Tape), 40 ≤ s.food → 20 ≤ s.power →
      (process_action "boost_morale" s t).1.morale = s.morale + 30) ∧
    (∀ (s : GameState) (t : Tape), (crisis_disease s t).1.morale = s.morale - 30) ∧
    (∃ s : GameState, Reachable s ∧ 70 < s.morale ∧
      100 < (advance_turn "boost_morale" [] s).morale) ∧
    (∃ s : GameState, Reachable s ∧ (advance_turn "wait" [] s).morale < 0) := by
  refine ⟨boost_morale_adds_30, crisis_disease_morale,
    ⟨world2, reach_world2, by decide, by decide⟩,
    ⟨world7, reach_world7, by decide⟩⟩

theorem C10_no_morale_clamp_witness :
    40 ≤ richBuildState.food ∧ 20 ≤ richBuildState.power ∧
    (process_action "boost_morale" richBuildState []).1.morale =
      richBuildState.morale + 30 := by
  refine ⟨by decide, by decide, ?_⟩
  exact C10_no_morale_clamp.1 richBuildState [] (by decide) (by decide)

end Spire
